import Mathlib

/-!
# Verification of the leverage_agent tool server and provider layer

Shallow embedding of the Python sources of the `Zhuoli/leverage_agent`
repository (the Atlassian MCP tool server under `mcp-server/` and the
provider abstraction layer under `src/`).

Modelling conventions:
* Python values that flow through the tool argument mappings and the REST
  client results are modelled by the inductive type `PyVal` (JSON-like data
  plus the Python value None); dictionaries are association lists with string keys,
  looked up by first occurrence (Python dict keys are unique).
* Python exceptions are modelled by `Except String`, the string being the
  message of the exception (`str(e)`), since every message produced by the code
  interpolates exceptions via `str`.
* The external Atlassian REST library (`atlassian.Jira` / `atlassian.Confluence`)
  is out of the repository; its methods are oracles (`JiraApi`, `ConfluenceApi`)
  that either return a value or raise.  Each client-level and tool-level
  function additionally returns the ordered list of oracle methods it invoked,
  so that "performs no remote call" is a provable statement.
-/

namespace LeverageAgent

/-- A Python runtime value as it appears in tool argument mappings and in the
JSON payloads returned by the Atlassian REST API. -/
inductive PyVal where
  | none
  | str (s : String)
  | int (n : Int)
  | bool (b : Bool)
  | list (xs : List PyVal)
  | dict (kvs : List (String × PyVal))

/-- Python truthiness (`bool(v)`): `None`, `""`, `0`, `False` and empty
containers are falsy, everything else is truthy. -/
def PyVal.truthy : PyVal → Bool
  | .none => false
  | .str s => !s.isEmpty
  | .int n => n != 0
  | .bool b => b
  | .list xs => !xs.isEmpty
  | .dict kvs => !kvs.isEmpty

mutual

/-- Python `repr(v)` (to the extent the repository interpolates values into
f-strings; string escaping inside `repr` of a string is not modelled). -/
def pyRepr : PyVal → String
  | PyVal.none => "None"
  | PyVal.str s => "\x27" ++ s ++ "\x27"
  | PyVal.int n => toString n
  | PyVal.bool b => if b then "True" else "False"
  | PyVal.list xs => "[" ++ pyReprList xs ++ "]"
  | PyVal.dict kvs => "\x7b" ++ pyReprDict kvs ++ "\x7d"

/-- Comma-separated `repr` of the elements of a Python list. -/
def pyReprList : List PyVal → String
  | [] => ""
  | [x] => pyRepr x
  | x :: y :: rest => pyRepr x ++ ", " ++ pyReprList (y :: rest)

/-- Comma-separated `repr` of the entries of a Python dict. -/
def pyReprDict : List (String × PyVal) → String
  | [] => ""
  | [(k, v)] => "\x27" ++ k ++ "\x27: " ++ pyRepr v
  | (k, v) :: e :: rest => "\x27" ++ k ++ "\x27: " ++ pyRepr v ++ ", " ++ pyReprDict (e :: rest)

end

/-- Python `str(v)` as used in f-string interpolation. -/
def pyStr : PyVal → String
  | PyVal.str s => s
  | v => pyRepr v

/-- An argument mapping (a Python dict with string keys). -/
abbrev Args := List (String × PyVal)

/-- Python `d.get(k, default)` where `d` is known to be a dict. -/
def Args.getD (args : Args) (k : String) (d : PyVal) : PyVal :=
  (args.lookup k).getD d

/-- Python `k in d` key-membership test on a dict. -/
def Args.hasKey (args : Args) (k : String) : Bool :=
  (args.lookup k).isSome

/-- Python `v.get(k, default)` on an arbitrary value: succeeds when `v` is a
dict, raises `AttributeError` otherwise (non-dict objects have no `get`). -/
def pyGet (v : PyVal) (k : String) (d : PyVal) : Except String PyVal :=
  match v with
  | PyVal.dict kvs => .ok ((kvs.lookup k).getD d)
  | _ => .error ("AttributeError: object has no attribute \x27get\x27 (key " ++ k ++ ")")

/-- One `type="text"` content block of a tool result
(`mcp.types.TextContent`). -/
structure TextContent where
  type : String
  text : String

/-- The single error block every handler returns for a failure `msg`. -/
def errBlock (msg : String) : List TextContent := [⟨"text", msg⟩]

/-- Ordered list of the names of the external REST-library methods a call
invoked. -/
abbrev RemoteLog := List String

/-! ## `mcp-server/atlassian_mcp/jira_client.py` -/

/-- Model of `re.search(r"name=([^,\]]+)", s)`: scan left to right for the first
position where the literal `name=` is followed by at least one character that
is neither `,` nor `]`; the (greedy) capture group is the maximal run of such
characters. `none` when the pattern matches nowhere. -/
def reSearchSprintName : List Char → Option String
  | [] => Option.none
  | c :: rest =>
    let captured := ((c :: rest).drop 5).takeWhile (fun ch => !(ch == ',' || ch == ']'))
    if (c :: rest).take 5 = ['n', 'a', 'm', 'e', '='] && !captured.isEmpty then
      some (String.mk captured)
    else
      reSearchSprintName rest

/-- Body of `JiraClient._extract_sprint_name` after the `customfield_10020`
lookup: `if sprint_field and isinstance(sprint_field, list) and
len(sprint_field) > 0`, then dispatch on the last element. -/
def sprint_from_field (sprint_field : PyVal) : PyVal :=
  match sprint_field with
  | PyVal.list xs =>
    if xs.isEmpty then PyVal.none
    else
      match xs.getLast? with
      | some (PyVal.dict d) => (d.lookup "name").getD PyVal.none
      | some (PyVal.str s) =>
        match reSearchSprintName s.data with
        | some nm => PyVal.str nm
        | Option.none => PyVal.none
      | _ => PyVal.none
  | _ => PyVal.none

/-- Embedding of `JiraClient._extract_sprint_name(fields)`: read `customfield_10020` from
the fields dict and extract the sprint name from it. The `pyGet` raises only
when `fields` is not a dict. -/
def extract_sprint_name (fields : PyVal) : Except String PyVal := do
  let sprint_field ← pyGet fields "customfield_10020" PyVal.none
  pure (sprint_from_field sprint_field)

/-- The fixed-key dict built by `JiraClient.format_issue`. -/
structure FormattedIssue where
  key : PyVal
  summary : PyVal
  status : PyVal
  priority : PyVal
  assignee : PyVal
  issue_type : PyVal
  created : PyVal
  updated : PyVal
  description : PyVal
  labels : PyVal
  sprint : PyVal
  story_points : PyVal
  url : String

/-- Embedding of `JiraClient.format_issue(issue)`: flatten a raw Jira issue into the fixed
dict, evaluating the entries in source order; any `.get` on a non-dict raises
(and is caught by the calling tool handler). -/
def format_issue (jira_url : String) (issue : PyVal) : Except String FormattedIssue := do
  let fields ← pyGet issue "fields" (PyVal.dict [])
  let key ← pyGet issue "key" PyVal.none
  let summary ← pyGet fields "summary" PyVal.none
  let statusObj ← pyGet fields "status" (PyVal.dict [])
  let status ← pyGet statusObj "name" PyVal.none
  let prioObj ← pyGet fields "priority" (PyVal.dict [])
  let priority ← pyGet prioObj "name" (PyVal.str "None")
  let assigneeTest ← pyGet fields "assignee" PyVal.none
  let assignee ←
    if assigneeTest.truthy then do
      let aObj ← pyGet fields "assignee" (PyVal.dict [])
      pyGet aObj "displayName" PyVal.none
    else
      pure (PyVal.str "Unassigned")
  let itObj ← pyGet fields "issuetype" (PyVal.dict [])
  let issue_type ← pyGet itObj "name" PyVal.none
  let created ← pyGet fields "created" PyVal.none
  let updated ← pyGet fields "updated" PyVal.none
  let description ← pyGet fields "description" (PyVal.str "No description")
  let labels ← pyGet fields "labels" (PyVal.list [])
  let sprint ← extract_sprint_name fields
  let story_points ← pyGet fields "customfield_10016" PyVal.none
  pure ⟨key, summary, status, priority, assignee, issue_type, created, updated,
        description, labels, sprint, story_points,
        jira_url ++ "/browse/" ++ pyStr key⟩

/-- Oracle for the external `atlassian.Jira` REST client: each method either
returns a JSON value or raises (message string). -/
structure JiraApi where
  jql : PyVal → PyVal → Except String PyVal
  create_issue : List (String × PyVal) → Except String PyVal
  update_issue_field : PyVal → List (String × PyVal) → Except String PyVal
  issue : PyVal → Except String PyVal
  issue_add_comment : PyVal → PyVal → Except String PyVal

namespace JiraClient

/-- Embedding of `JiraClient.search_jira_tickets(jql, max_results)`: run the JQL query and
return the "issues" entry of the result (default: empty list); any exception is re-raised as
`RuntimeError(f"Failed to search Jira tickets: {e}")`. -/
def search_jira_tickets (api : JiraApi) (jql max_results : PyVal) :
    Except String PyVal × RemoteLog :=
  match (do
    let results ← api.jql jql max_results
    pyGet results "issues" (PyVal.list [])) with
  | .ok v => (.ok v, ["jql"])
  | .error e => (.error ("Failed to search Jira tickets: " ++ e), ["jql"])

/-- Embedding of `JiraClient.get_my_issues(max_results, additional_jql)`: build the
assignee JQL and delegate to `search_jira_tickets`. -/
def get_my_issues (api : JiraApi) (user_email : String) (max_results : PyVal)
    (additional_jql : Option String) : Except String PyVal × RemoteLog :=
  let jql0 := "assignee = \"" ++ user_email ++ "\""
  let jql1 := match additional_jql with
    | some a => if !a.isEmpty then jql0 ++ " AND " ++ a else jql0
    | Option.none => jql0
  search_jira_tickets api (PyVal.str (jql1 ++ " ORDER BY priority DESC, updated DESC")) max_results

/-- Embedding of `JiraClient.get_sprint_issues(include_future_sprints, max_results)`. -/
def get_sprint_issues (api : JiraApi) (user_email : String)
    (include_future_sprints max_results : PyVal) : Except String PyVal × RemoteLog :=
  let sprint_filter :=
    if include_future_sprints.truthy then
      "sprint in openSprints() OR sprint in futureSprints()"
    else
      "sprint in openSprints()"
  get_my_issues api user_email max_results (some sprint_filter)

/-- Embedding of `JiraClient.create_jira_ticket(project_key, summary, description,
issue_type)` (the tool handler passes no `**extra_fields`). -/
def create_jira_ticket (api : JiraApi) (project_key summary description issue_type : PyVal) :
    Except String PyVal × RemoteLog :=
  let fields : List (String × PyVal) :=
    [("project", PyVal.dict [("key", project_key)]),
     ("summary", summary),
     ("description", description),
     ("issuetype", PyVal.dict [("name", issue_type)])]
  match api.create_issue fields with
  | .ok v => (.ok v, ["create_issue"])
  | .error e => (.error ("Failed to create Jira ticket: " ++ e), ["create_issue"])

/-- Embedding of `JiraClient.update_jira_ticket(issue_key, **fields)`: update the fields,
then fetch and return the updated issue. -/
def update_jira_ticket (api : JiraApi) (issue_key : PyVal) (fields : List (String × PyVal)) :
    Except String PyVal × RemoteLog :=
  match api.update_issue_field issue_key fields with
  | .error e => (.error ("Failed to update Jira ticket: " ++ e), ["update_issue_field"])
  | .ok _ =>
    match api.issue issue_key with
    | .error e => (.error ("Failed to update Jira ticket: " ++ e), ["update_issue_field", "issue"])
    | .ok v => (.ok v, ["update_issue_field", "issue"])

/-- Embedding of `JiraClient.add_jira_comment(issue_key, comment)`. -/
def add_jira_comment (api : JiraApi) (issue_key comment : PyVal) :
    Except String PyVal × RemoteLog :=
  match api.issue_add_comment issue_key comment with
  | .ok v => (.ok v, ["issue_add_comment"])
  | .error e => (.error ("Failed to add comment to Jira ticket: " ++ e), ["issue_add_comment"])

end JiraClient

/-! ## `mcp-server/atlassian_mcp/confluence_client.py` -/

/-- Oracle for the external `atlassian.Confluence` REST client. -/
structure ConfluenceApi where
  cql : String → PyVal → Except String PyVal
  get_page_by_title : PyVal → PyVal → Except String PyVal
  get_page_by_id : PyVal → Except String PyVal
  create_page : List (String × PyVal) → Except String PyVal
  update_page : List (String × PyVal) → Except String PyVal

/-- The fixed-key dict built by `ConfluenceClient.format_page`. -/
structure FormattedPage where
  id : PyVal
  title : PyVal
  space : PyVal
  version : PyVal
  last_modified : PyVal
  url : String

/-- Embedding of `ConfluenceClient.format_page(page)`: flatten a raw Confluence page
(search result or direct API response) into the fixed dict. The Python
membership test for the "content" key and the `.get` chains require `page` to be
a dict; iteration of `in` over non-dict containers is not modelled (the REST
interface returns JSON objects here). -/
def format_page (confluence_url : String) (page : PyVal) : Except String FormattedPage := do
  match page with
  | PyVal.dict kvs => do
    let (page_id, title, space) ←
      if (kvs.lookup "content").isSome then do
        let content := (kvs.lookup "content").getD PyVal.none
        let pid ← pyGet content "id" PyVal.none
        let t ← pyGet content "title" PyVal.none
        let spObj ← pyGet content "space" (PyVal.dict [])
        let sp ← pyGet spObj "key" (PyVal.str "Unknown")
        pure (pid, t, sp)
      else do
        let pid ← pyGet page "id" PyVal.none
        let t ← pyGet page "title" PyVal.none
        let spObj ← pyGet page "space" (PyVal.dict [])
        let sp ← pyGet spObj "key" (PyVal.str "Unknown")
        pure (pid, t, sp)
    let verObj1 ← pyGet page "version" (PyVal.dict [])
    let version ← pyGet verObj1 "number" (PyVal.int 1)
    let verObj2 ← pyGet page "version" (PyVal.dict [])
    let whenV ← pyGet verObj2 "when" PyVal.none
    let last_modified ←
      if whenV.truthy then
        pure whenV
      else do
        let hist ← pyGet page "history" (PyVal.dict [])
        let lu ← pyGet hist "lastUpdated" (PyVal.dict [])
        pyGet lu "when" PyVal.none
    pure ⟨page_id, title, space, version, last_modified,
          confluence_url ++ "/pages/viewpage.action?pageId=" ++ pyStr page_id⟩
  | _ => .error "TypeError: argument of type is not iterable"

namespace ConfluenceClient

/-- Embedding of `ConfluenceClient.search_confluence_pages(query, space_key, max_results)`:
build the CQL text query (space-scoped when a space is configured or given)
and return the "results" entry of the result (default: empty list); exceptions are re-raised as
`RuntimeError(f"Failed to search Confluence pages: {e}")`. -/
def search_confluence_pages (api : ConfluenceApi) (cfg_space : String)
    (query space_key max_results : PyVal) : Except String PyVal × RemoteLog :=
  let search_space := if space_key.truthy then space_key else PyVal.str cfg_space
  let cql0 := "type=page AND text~\"" ++ pyStr query ++ "\""
  let cql := if search_space.truthy then cql0 ++ " AND space=\"" ++ pyStr search_space ++ "\"" else cql0
  match (do
    let results ← api.cql cql max_results
    pyGet results "results" (PyVal.list [])) with
  | .ok v => (.ok v, ["cql"])
  | .error e => (.error ("Failed to search Confluence pages: " ++ e), ["cql"])

/-- Embedding of `ConfluenceClient.get_page_by_title(title, space_key)`: on any exception a
warning is printed and `None` is returned — this method never raises. -/
def get_page_by_title (api : ConfluenceApi) (cfg_space : String)
    (title space_key : PyVal) : Except String PyVal × RemoteLog :=
  let search_space := if space_key.truthy then space_key else PyVal.str cfg_space
  match api.get_page_by_title search_space title with
  | .ok page => (.ok page, ["get_page_by_title"])
  | .error _ => (.ok PyVal.none, ["get_page_by_title"])

/-- Embedding of `ConfluenceClient.get_page_by_id(page_id)`: exceptions re-raised as
`RuntimeError(f"Failed to get page: {e}")`. -/
def get_page_by_id (api : ConfluenceApi) (page_id : PyVal) :
    Except String PyVal × RemoteLog :=
  match api.get_page_by_id page_id with
  | .ok page => (.ok page, ["get_page_by_id"])
  | .error e => (.error ("Failed to get page: " ++ e), ["get_page_by_id"])

/-- Embedding of `ConfluenceClient.create_confluence_page(title, body, space_key,
parent_id)`: assemble the page payload (with `ancestors` when a parent is
given) and create it; exceptions re-raised as
`RuntimeError(f"Failed to create Confluence page: {e}")`. -/
def create_confluence_page (api : ConfluenceApi) (cfg_space : String)
    (title body space_key parent_id : PyVal) : Except String PyVal × RemoteLog :=
  let space := if space_key.truthy then space_key else PyVal.str cfg_space
  let page_data : List (String × PyVal) :=
    [("type", PyVal.str "page"),
     ("title", title),
     ("space", PyVal.dict [("key", space)]),
     ("body", PyVal.dict [("storage", PyVal.dict
        [("value", body), ("representation", PyVal.str "storage")])])] ++
    (if parent_id.truthy then [("ancestors", PyVal.list [PyVal.dict [("id", parent_id)]])] else [])
  match api.create_page page_data with
  | .ok page => (.ok page, ["create_page"])
  | .error e => (.error ("Failed to create Confluence page: " ++ e), ["create_page"])

/-- Python `current_version + 1` where the version came from JSON. -/
def pyAddOne (v : PyVal) : Except String Int :=
  match v with
  | PyVal.int n => .ok (n + 1)
  | PyVal.bool b => .ok (if b then 2 else 1)
  | _ => .error "TypeError: unsupported operand type(s) for +"

/-- Embedding of `ConfluenceClient.update_confluence_page(page_id, title, body)`: fetch the
current page for its version, bump the version, keep the old title when no new
one is given, and push the update; every exception in the block (including the
one re-raised by `get_page_by_id`) is re-raised as
`RuntimeError(f"Failed to update Confluence page: {e}")`. -/
def update_confluence_page (api : ConfluenceApi) (page_id title body : PyVal) :
    Except String PyVal × RemoteLog :=
  match get_page_by_id api page_id with
  | (.error e, log) => (.error ("Failed to update Confluence page: " ++ e), log)
  | (.ok current_page, log) =>
    match (do
      let verObj ← pyGet current_page "version" (PyVal.dict [])
      let current_version ← pyGet verObj "number" (PyVal.int 1)
      let newVer ← pyAddOne current_version
      let titleVal ← if title.truthy then pure title else pyGet current_page "title" PyVal.none
      pure (newVer, titleVal)) with
    | .error e => (.error ("Failed to update Confluence page: " ++ e), log)
    | .ok (newVer, titleVal) =>
      let update_data : List (String × PyVal) :=
        [("id", page_id),
         ("type", PyVal.str "page"),
         ("version", PyVal.dict [("number", PyVal.int newVer)]),
         ("title", titleVal)] ++
        (if body.truthy then
          [("body", PyVal.dict [("storage", PyVal.dict
             [("value", body), ("representation", PyVal.str "storage")])])]
         else [])
      match api.update_page update_data with
      | .ok page => (.ok page, log ++ ["update_page"])
      | .error e => (.error ("Failed to update Confluence page: " ++ e), log ++ ["update_page"])

/-- Chained gets for the storage body value: page, then "body", then "storage", then "value" (default: empty string). -/
def page_body_value (page : PyVal) : Except String PyVal := do
  let b ← pyGet page "body" (PyVal.dict [])
  let st ← pyGet b "storage" (PyVal.dict [])
  pyGet st "value" (PyVal.str "")

/-- Embedding of `ConfluenceClient.get_page_content(page_id, title, space_key)`: resolve
the page by id (propagating the RuntimeError of the id lookup) or by title
(raising a ValueError naming the missing page when absent), raising
`ValueError` when neither is given, and return the storage body value. -/
def get_page_content (api : ConfluenceApi) (cfg_space : String)
    (page_id title space_key : PyVal) : Except String PyVal × RemoteLog :=
  if page_id.truthy then
    match get_page_by_id api page_id with
    | (.error e, log) => (.error e, log)
    | (.ok page, log) => (page_body_value page, log)
  else if title.truthy then
    match get_page_by_title api cfg_space title space_key with
    | (.error e, log) => (.error e, log)
    | (.ok page, log) =>
      if !page.truthy then
        (.error ("Page \x27" ++ pyStr title ++ "\x27 not found"), log)
      else
        (page_body_value page, log)
  else
    (.error "Either page_id or title must be provided", [])

/-- Embedding of `ConfluenceClient.get_recent_pages(space_key, max_results)`: CQL ordered
by last modification, space-scoped when a space is configured or given;
exceptions re-raised as `RuntimeError(f"Failed to get recent pages: {e}")`. -/
def get_recent_pages (api : ConfluenceApi) (cfg_space : String)
    (space_key max_results : PyVal) : Except String PyVal × RemoteLog :=
  let search_space := if space_key.truthy then space_key else PyVal.str cfg_space
  let cql :=
    if search_space.truthy then
      "type=page AND space=\"" ++ pyStr search_space ++ "\" ORDER BY lastModified DESC"
    else
      "type=page ORDER BY lastModified DESC"
  match (do
    let results ← api.cql cql max_results
    pyGet results "results" (PyVal.list [])) with
  | .ok v => (.ok v, ["cql"])
  | .error e => (.error ("Failed to get recent pages: " ++ e), ["cql"])

end ConfluenceClient

/-! ## Tool handlers (`jira_tools.py`, `confluence_tools.py`) -/

/-- The configuration fields the tool modules read
(`atlassian_mcp/config.py` values used by the handlers). -/
structure AtlConfig where
  jira_url : String
  confluence_url : String
  confluence_space_key : String
  user_email : String

/-- Python `for`-iteration / list comprehension over a REST result: JSON
arrays are lists; iteration over other values is not modelled (the REST
interface returns arrays where the handlers iterate). -/
def pyIterList (v : PyVal) : Except String (List PyVal) :=
  match v with
  | PyVal.list xs => .ok xs
  | _ => .error "TypeError: object is not iterable"

/-- One numbered entry of the `search_jira_tickets` result text. -/
def jiraIssueLine (idx : Nat) (it : FormattedIssue) : String :=
  toString idx ++ ". [" ++ pyStr it.key ++ "] " ++ pyStr it.summary ++ "\n" ++
  "   Status: " ++ pyStr it.status ++ " | Priority: " ++ pyStr it.priority ++ "\n" ++
  "   Type: " ++ pyStr it.issue_type ++ " | Assignee: " ++ pyStr it.assignee ++ "\n" ++
  (if it.sprint.truthy then "   Sprint: " ++ pyStr it.sprint ++ "\n" else "") ++
  "   URL: " ++ it.url ++ "\n\n"

/-- One numbered entry of the `get_my_sprint_tasks` result text. -/
def sprintTaskLine (idx : Nat) (it : FormattedIssue) : String :=
  toString idx ++ ". [" ++ pyStr it.key ++ "] " ++ pyStr it.summary ++ "\n" ++
  "   Status: " ++ pyStr it.status ++ " | Priority: " ++ pyStr it.priority ++ "\n" ++
  (if it.sprint.truthy then "   Sprint: " ++ pyStr it.sprint ++ "\n" else "") ++
  (if it.story_points.truthy then "   Story Points: " ++ pyStr it.story_points ++ "\n" else "") ++
  "   URL: " ++ it.url ++ "\n\n"

/-- One numbered entry of the Confluence page-list result texts. -/
def confPageLine (idx : Nat) (pg : FormattedPage) : String :=
  toString idx ++ ". " ++ pyStr pg.title ++ "\n" ++
  "   Space: " ++ pyStr pg.space ++ " | Version: " ++ pyStr pg.version ++ "\n" ++
  (if pg.last_modified.truthy then "   Last Modified: " ++ pyStr pg.last_modified ++ "\n" else "") ++
  "   URL: " ++ pg.url ++ "\n\n"

namespace JiraTools

/-- Handler `search_jira_tickets(arguments)`: require a truthy `jql`, search,
format each issue, and render the numbered list; every exception inside the
`try` becomes the single `Error searching Jira tickets: …` block. -/
def search_jira_tickets (api : JiraApi) (cfg : AtlConfig) (arguments : Args) :
    List TextContent × RemoteLog :=
  let jql := arguments.getD "jql" (PyVal.str "")
  let max_results := arguments.getD "max_results" (PyVal.int 50)
  if !jql.truthy then
    (errBlock "Error: \x27jql\x27 parameter is required", [])
  else
    match JiraClient.search_jira_tickets api jql max_results with
    | (.error e, log) => (errBlock ("Error searching Jira tickets: " ++ e), log)
    | (.ok issuesV, log) =>
      match (do
        let issues ← pyIterList issuesV
        issues.mapM (format_issue cfg.jira_url)) with
      | .error e => (errBlock ("Error searching Jira tickets: " ++ e), log)
      | .ok formatted =>
        if formatted.isEmpty then
          ([⟨"text", "No issues found matching the query."⟩], log)
        else
          ([⟨"text", "Found " ++ toString formatted.length ++ " issue(s):\n\n" ++
              String.join ((List.enumFrom 1 formatted).map fun p => jiraIssueLine p.1 p.2)⟩], log)

/-- Handler `create_jira_ticket(arguments)`: require truthy `project_key`,
`summary` and `description` (`if not all([...])`), then create the ticket. -/
def create_jira_ticket (api : JiraApi) (cfg : AtlConfig) (arguments : Args) :
    List TextContent × RemoteLog :=
  let project_key := arguments.getD "project_key" (PyVal.str "")
  let summary := arguments.getD "summary" (PyVal.str "")
  let description := arguments.getD "description" (PyVal.str "")
  let issue_type := arguments.getD "issue_type" (PyVal.str "Task")
  if !(project_key.truthy && summary.truthy && description.truthy) then
    (errBlock "Error: \x27project_key\x27, \x27summary\x27, and \x27description\x27 are required", [])
  else
    match JiraClient.create_jira_ticket api project_key summary description issue_type with
    | (.error e, log) => (errBlock ("Error creating Jira ticket: " ++ e), log)
    | (.ok issue, log) =>
      match pyGet issue "key" (PyVal.str "Unknown") with
      | .error e => (errBlock ("Error creating Jira ticket: " ++ e), log)
      | .ok issue_key =>
        ([⟨"text", "✓ Created Jira ticket: " ++ pyStr issue_key ++ "\n" ++
            "Summary: " ++ pyStr summary ++ "\n" ++
            "Type: " ++ pyStr issue_type ++ "\n" ++
            "URL: " ++ (cfg.jira_url ++ "/browse/" ++ pyStr issue_key) ++ "\n"⟩], log)

/-- Handler `update_jira_ticket(arguments)`: require a truthy `issue_key`,
collect the fields present by key membership (`"summary" in arguments`), and
refuse with an error block when no updatable field was supplied. -/
def update_jira_ticket (api : JiraApi) (cfg : AtlConfig) (arguments : Args) :
    List TextContent × RemoteLog :=
  let issue_key := arguments.getD "issue_key" (PyVal.str "")
  if !issue_key.truthy then
    (errBlock "Error: \x27issue_key\x27 is required", [])
  else
    let fields : List (String × PyVal) :=
      (if arguments.hasKey "summary" then [("summary", arguments.getD "summary" PyVal.none)] else []) ++
      (if arguments.hasKey "description" then [("description", arguments.getD "description" PyVal.none)] else [])
    if fields.isEmpty then
      (errBlock "Error: At least one field to update must be provided", [])
    else
      match JiraClient.update_jira_ticket api issue_key fields with
      | (.error e, log) => (errBlock ("Error updating Jira ticket: " ++ e), log)
      | (.ok updated_issue, log) =>
        match format_issue cfg.jira_url updated_issue with
        | .error e => (errBlock ("Error updating Jira ticket: " ++ e), log)
        | .ok formatted =>
          ([⟨"text", "✓ Updated Jira ticket: " ++ pyStr issue_key ++ "\n" ++
              "Summary: " ++ pyStr formatted.summary ++ "\n" ++
              "Status: " ++ pyStr formatted.status ++ "\n" ++
              "URL: " ++ formatted.url ++ "\n"⟩], log)

/-- Handler `add_jira_comment(arguments)`: require truthy `issue_key` and
`comment`, then add the comment. -/
def add_jira_comment (api : JiraApi) (_cfg : AtlConfig) (arguments : Args) :
    List TextContent × RemoteLog :=
  let issue_key := arguments.getD "issue_key" (PyVal.str "")
  let comment := arguments.getD "comment" (PyVal.str "")
  if !(issue_key.truthy && comment.truthy) then
    (errBlock "Error: \x27issue_key\x27 and \x27comment\x27 are required", [])
  else
    match JiraClient.add_jira_comment api issue_key comment with
    | (.error e, log) => (errBlock ("Error adding comment to Jira ticket: " ++ e), log)
    | (.ok _, log) =>
      ([⟨"text", "✓ Added comment to Jira ticket: " ++ pyStr issue_key ++ "\n" ++
          "Comment: " ++ pyStr comment ++ "\n"⟩], log)

/-- Handler `get_my_sprint_tasks(arguments)`: no required parameters; fetch
the open-sprint issues of the user and render them. -/
def get_my_sprint_tasks (api : JiraApi) (cfg : AtlConfig) (arguments : Args) :
    List TextContent × RemoteLog :=
  let include_future := arguments.getD "include_future_sprints" (PyVal.bool false)
  let max_results := arguments.getD "max_results" (PyVal.int 50)
  match JiraClient.get_sprint_issues api cfg.user_email include_future max_results with
  | (.error e, log) => (errBlock ("Error getting sprint tasks: " ++ e), log)
  | (.ok issuesV, log) =>
    match (do
      let issues ← pyIterList issuesV
      issues.mapM (format_issue cfg.jira_url)) with
    | .error e => (errBlock ("Error getting sprint tasks: " ++ e), log)
    | .ok formatted =>
      if formatted.isEmpty then
        ([⟨"text", "No sprint tasks found."⟩], log)
      else
        ([⟨"text", "Found " ++ toString formatted.length ++ " sprint task(s):\n\n" ++
            String.join ((List.enumFrom 1 formatted).map fun p => sprintTaskLine p.1 p.2)⟩], log)

end JiraTools

namespace ConfTools

/-- Handler `search_confluence_pages(arguments)`: require a truthy `query`,
search and render the numbered page list. -/
def search_confluence_pages (api : ConfluenceApi) (cfg : AtlConfig) (arguments : Args) :
    List TextContent × RemoteLog :=
  let query := arguments.getD "query" (PyVal.str "")
  let space_key := arguments.getD "space_key" PyVal.none
  let max_results := arguments.getD "max_results" (PyVal.int 20)
  if !query.truthy then
    (errBlock "Error: \x27query\x27 parameter is required", [])
  else
    match ConfluenceClient.search_confluence_pages api cfg.confluence_space_key query space_key max_results with
    | (.error e, log) => (errBlock ("Error searching Confluence pages: " ++ e), log)
    | (.ok pagesV, log) =>
      match (do
        let pages ← pyIterList pagesV
        pages.mapM (format_page cfg.confluence_url)) with
      | .error e => (errBlock ("Error searching Confluence pages: " ++ e), log)
      | .ok formatted =>
        if formatted.isEmpty then
          ([⟨"text", "No pages found matching the query."⟩], log)
        else
          ([⟨"text", "Found " ++ toString formatted.length ++ " page(s):\n\n" ++
              String.join ((List.enumFrom 1 formatted).map fun p => confPageLine p.1 p.2)⟩], log)

/-- Handler `create_confluence_page(arguments)`: require truthy `title` and
`body` (`if not all([title, body])`), then create the page. -/
def create_confluence_page (api : ConfluenceApi) (cfg : AtlConfig) (arguments : Args) :
    List TextContent × RemoteLog :=
  let title := arguments.getD "title" (PyVal.str "")
  let body := arguments.getD "body" (PyVal.str "")
  let space_key := arguments.getD "space_key" PyVal.none
  let parent_id := arguments.getD "parent_id" PyVal.none
  if !(title.truthy && body.truthy) then
    (errBlock "Error: \x27title\x27 and \x27body\x27 are required", [])
  else
    match ConfluenceClient.create_confluence_page api cfg.confluence_space_key title body space_key parent_id with
    | (.error e, log) => (errBlock ("Error creating Confluence page: " ++ e), log)
    | (.ok page, log) =>
      match (do
        let pid ← pyGet page "id" (PyVal.str "Unknown")
        let spObj ← pyGet page "space" (PyVal.dict [])
        let sp ← pyGet spObj "key" (PyVal.str "Unknown")
        pure (pid, sp)) with
      | .error e => (errBlock ("Error creating Confluence page: " ++ e), log)
      | .ok (pid, sp) =>
        ([⟨"text", "✓ Created Confluence page: " ++ pyStr title ++ "\n" ++
            "Space: " ++ pyStr sp ++ "\n" ++
            "URL: " ++ (cfg.confluence_url ++ "/pages/viewpage.action?pageId=" ++ pyStr pid) ++ "\n"⟩], log)

/-- Handler `update_confluence_page(arguments)`: require a truthy `page_id`
and at least one truthy field among `title` and `body` (both are optional in
the catalog schema), then update the page. -/
def update_confluence_page (api : ConfluenceApi) (cfg : AtlConfig) (arguments : Args) :
    List TextContent × RemoteLog :=
  let page_id := arguments.getD "page_id" (PyVal.str "")
  let title := arguments.getD "title" PyVal.none
  let body := arguments.getD "body" PyVal.none
  if !page_id.truthy then
    (errBlock "Error: \x27page_id\x27 is required", [])
  else if !title.truthy && !body.truthy then
    (errBlock "Error: At least one of \x27title\x27 or \x27body\x27 must be provided", [])
  else
    match ConfluenceClient.update_confluence_page api page_id title body with
    | (.error e, log) => (errBlock ("Error updating Confluence page: " ++ e), log)
    | (.ok page, log) =>
      match format_page cfg.confluence_url page with
      | .error e => (errBlock ("Error updating Confluence page: " ++ e), log)
      | .ok f =>
        ([⟨"text", "✓ Updated Confluence page: " ++ pyStr f.title ++ "\n" ++
            "Space: " ++ pyStr f.space ++ " | Version: " ++ pyStr f.version ++ "\n" ++
            "URL: " ++ f.url ++ "\n"⟩], log)

/-- Handler `get_confluence_page_content(arguments)`: require `page_id` or
`title`, fetch the content and (again) the page metadata, and render both. -/
def get_confluence_page_content (api : ConfluenceApi) (cfg : AtlConfig) (arguments : Args) :
    List TextContent × RemoteLog :=
  let page_id := arguments.getD "page_id" PyVal.none
  let title := arguments.getD "title" PyVal.none
  let space_key := arguments.getD "space_key" PyVal.none
  if !page_id.truthy && !title.truthy then
    (errBlock "Error: Either \x27page_id\x27 or \x27title\x27 must be provided", [])
  else
    match ConfluenceClient.get_page_content api cfg.confluence_space_key page_id title space_key with
    | (.error e, log) => (errBlock ("Error getting page content: " ++ e), log)
    | (.ok content, log) =>
      match (if page_id.truthy then
               ConfluenceClient.get_page_by_id api page_id
             else
               ConfluenceClient.get_page_by_title api cfg.confluence_space_key title space_key) with
      | (.error e, log2) => (errBlock ("Error getting page content: " ++ e), log ++ log2)
      | (.ok page, log2) =>
        if page.truthy then
          match format_page cfg.confluence_url page with
          | .error e => (errBlock ("Error getting page content: " ++ e), log ++ log2)
          | .ok f =>
            ([⟨"text", "Page: " ++ pyStr f.title ++ "\n" ++
                "Space: " ++ pyStr f.space ++ " | Version: " ++ pyStr f.version ++ "\n" ++
                "URL: " ++ f.url ++ "\n\n" ++
                "Content:\n" ++ pyStr content ++ "\n"⟩], log ++ log2)
        else
          ([⟨"text", "Content:\n" ++ pyStr content ++ "\n"⟩], log ++ log2)

/-- Handler `get_recent_confluence_pages(arguments)`: no required parameters;
fetch and render the recently updated pages. -/
def get_recent_confluence_pages (api : ConfluenceApi) (cfg : AtlConfig) (arguments : Args) :
    List TextContent × RemoteLog :=
  let space_key := arguments.getD "space_key" PyVal.none
  let max_results := arguments.getD "max_results" (PyVal.int 10)
  match ConfluenceClient.get_recent_pages api cfg.confluence_space_key space_key max_results with
  | (.error e, log) => (errBlock ("Error getting recent pages: " ++ e), log)
  | (.ok pagesV, log) =>
    match (do
      let pages ← pyIterList pagesV
      pages.mapM (format_page cfg.confluence_url)) with
    | .error e => (errBlock ("Error getting recent pages: " ++ e), log)
    | .ok formatted =>
      if formatted.isEmpty then
        ([⟨"text", "No recent pages found."⟩], log)
      else
        ([⟨"text", "Found " ++ toString formatted.length ++ " recent page(s):\n\n" ++
            String.join ((List.enumFrom 1 formatted).map fun p => confPageLine p.1 p.2)⟩], log)

end ConfTools

/-! ## Tool catalog and server (`JIRA_TOOLS`, `CONFLUENCE_TOOLS`, `server.py`) -/

/-- One property of the `inputSchema` of a tool. -/
structure PropSchema where
  ty : String
  descr : String
  dflt : Option PyVal := Option.none

/-- The JSON `inputSchema` of a tool (an object schema with properties and the
list of required property names). -/
structure InputSchema where
  properties : List (String × PropSchema)
  required : List String := []

/-- One `mcp.types.Tool` descriptor of the static catalog. -/
structure Tool where
  name : String
  description : String
  inputSchema : InputSchema

/-- The `JIRA_TOOLS` catalog constant of `jira_tools.py`, in source order. -/
def JIRA_TOOLS : List Tool :=
  [⟨"search_jira_tickets",
    "Search for Jira tickets using JQL (Jira Query Language). Example: \x27assignee=currentUser() AND status!=Done\x27",
    ⟨[("jql", ⟨"string", "JQL query string", Option.none⟩),
      ("max_results", ⟨"integer", "Maximum number of results (default: 50)", some (PyVal.int 50)⟩)],
     ["jql"]⟩⟩,
   ⟨"create_jira_ticket",
    "Create a new Jira ticket in a project",
    ⟨[("project_key", ⟨"string", "Project key (e.g., \x27PROJ\x27)", Option.none⟩),
      ("summary", ⟨"string", "Issue summary/title", Option.none⟩),
      ("description", ⟨"string", "Issue description", Option.none⟩),
      ("issue_type", ⟨"string", "Issue type (Task, Bug, Story, etc.)", some (PyVal.str "Task")⟩)],
     ["project_key", "summary", "description"]⟩⟩,
   ⟨"update_jira_ticket",
    "Update an existing Jira ticket",
    ⟨[("issue_key", ⟨"string", "Issue key (e.g., \x27PROJ-123\x27)", Option.none⟩),
      ("summary", ⟨"string", "New summary", Option.none⟩),
      ("description", ⟨"string", "New description", Option.none⟩)],
     ["issue_key"]⟩⟩,
   ⟨"add_jira_comment",
    "Add a comment to a Jira ticket",
    ⟨[("issue_key", ⟨"string", "Issue key (e.g., \x27PROJ-123\x27)", Option.none⟩),
      ("comment", ⟨"string", "Comment text", Option.none⟩)],
     ["issue_key", "comment"]⟩⟩,
   ⟨"get_my_sprint_tasks",
    "Get Jira tasks assigned to me in active sprints",
    ⟨[("include_future_sprints", ⟨"boolean", "Include future sprints (default: False)", some (PyVal.bool false)⟩),
      ("max_results", ⟨"integer", "Maximum number of results (default: 50)", some (PyVal.int 50)⟩)],
     []⟩⟩]

/-- The `CONFLUENCE_TOOLS` catalog constant of `confluence_tools.py`, in
source order. -/
def CONFLUENCE_TOOLS : List Tool :=
  [⟨"search_confluence_pages",
    "Search for Confluence pages using text query",
    ⟨[("query", ⟨"string", "Search query text", Option.none⟩),
      ("space_key", ⟨"string", "Optional space key to search in", Option.none⟩),
      ("max_results", ⟨"integer", "Maximum number of results (default: 20)", some (PyVal.int 20)⟩)],
     ["query"]⟩⟩,
   ⟨"create_confluence_page",
    "Create a new Confluence page in a space",
    ⟨[("title", ⟨"string", "Page title", Option.none⟩),
      ("body", ⟨"string", "Page content in HTML format", Option.none⟩),
      ("space_key", ⟨"string", "Optional space key (uses default if not provided)", Option.none⟩),
      ("parent_id", ⟨"string", "Optional parent page ID", Option.none⟩)],
     ["title", "body"]⟩⟩,
   ⟨"update_confluence_page",
    "Update an existing Confluence page",
    ⟨[("page_id", ⟨"string", "Page ID", Option.none⟩),
      ("title", ⟨"string", "New page title", Option.none⟩),
      ("body", ⟨"string", "New page content in HTML format", Option.none⟩)],
     ["page_id"]⟩⟩,
   ⟨"get_confluence_page_content",
    "Get the full content of a Confluence page by ID or title",
    ⟨[("page_id", ⟨"string", "Page ID", Option.none⟩),
      ("title", ⟨"string", "Page title", Option.none⟩),
      ("space_key", ⟨"string", "Space key (required if using title)", Option.none⟩)],
     []⟩⟩,
   ⟨"get_recent_confluence_pages",
    "Get recently updated Confluence pages",
    ⟨[("space_key", ⟨"string", "Optional space key (uses default if not provided)", Option.none⟩),
      ("max_results", ⟨"integer", "Maximum number of results (default: 10)", some (PyVal.int 10)⟩)],
     []⟩⟩]

/-- The `list_tools` handler registered by `create_server` in `server.py`:
`all_tools = JIRA_TOOLS + CONFLUENCE_TOOLS; return all_tools`. Modelled as a
function of the (unit) request so that idempotence across calls is a
statement. -/
def list_tools : Unit → List Tool := fun _ => JIRA_TOOLS ++ CONFLUENCE_TOOLS

/-- Both external REST oracles together. -/
structure AtlOracles where
  jira : JiraApi
  conf : ConfluenceApi

/-- The handlers registered on the server by `register_jira_tools` followed by
`register_confluence_tools`, keyed by tool name, in registration order. -/
def toolRegistry (o : AtlOracles) (cfg : AtlConfig) :
    List (String × (Args → List TextContent × RemoteLog)) :=
  [("search_jira_tickets", JiraTools.search_jira_tickets o.jira cfg),
   ("create_jira_ticket", JiraTools.create_jira_ticket o.jira cfg),
   ("update_jira_ticket", JiraTools.update_jira_ticket o.jira cfg),
   ("add_jira_comment", JiraTools.add_jira_comment o.jira cfg),
   ("get_my_sprint_tasks", JiraTools.get_my_sprint_tasks o.jira cfg),
   ("search_confluence_pages", ConfTools.search_confluence_pages o.conf cfg),
   ("create_confluence_page", ConfTools.create_confluence_page o.conf cfg),
   ("update_confluence_page", ConfTools.update_confluence_page o.conf cfg),
   ("get_confluence_page_content", ConfTools.get_confluence_page_content o.conf cfg),
   ("get_recent_confluence_pages", ConfTools.get_recent_confluence_pages o.conf cfg)]

/-- Outcome of dispatching one `call_tool` request. -/
structure DispatchResult where
  content : List TextContent
  executed : Option String
  remote : RemoteLog
  terminated : Bool

/-- Modelled from the spec: the `call_tool` request dispatch loop lives in the
external MCP SDK package, not in the sources of this repository (the repository
only registers the handlers on the `Server` object). Per the spec (§4.2), an
unknown tool name fails at lookup: the loop returns an error result without
invoking any handler code and without tearing down the transport; a known name
invokes exactly the registered handler. -/
def call_tool_dispatch (o : AtlOracles) (cfg : AtlConfig) (name : String) (arguments : Args) :
    DispatchResult :=
  match (toolRegistry o cfg).lookup name with
  | some h =>
    let r := h arguments
    ⟨r.1, some name, r.2, false⟩
  | Option.none =>
    ⟨errBlock ("Error: Unknown tool: " ++ name), Option.none, [], false⟩

/-! ## Application configuration and provider layer (`src/config.py`,
`src/providers/`) -/

/-- The application `Config` model of `src/config.py` (the string fields read
by `validate_required_fields` and the factory). -/
structure AppConfig where
  model_provider : String
  anthropic_api_key : String
  openai_api_key : String
  jira_url : String
  jira_username : String
  jira_api_token : String
  confluence_url : String
  confluence_username : String
  confluence_api_token : String

/-- ASCII model of Python `str.lower()` as applied to the provider-kind
configuration field. -/
def pyLower (s : String) : String := String.mk (s.data.map Char.toLower)

/-- The `errors` list accumulated by `Config.validate_required_fields`, in
source order: the provider-specific credential check first, then the common
Jira/Confluence fields. -/
def AppConfig.config_errors (cfg : AppConfig) : List String :=
  let provider := pyLower cfg.model_provider
  (if provider = "claude" then
     if cfg.anthropic_api_key.isEmpty then
       ["ANTHROPIC_API_KEY is required when using Claude provider"]
     else []
   else if provider = "openai" then
     if cfg.openai_api_key.isEmpty then
       ["OPENAI_API_KEY is required when using OpenAI provider"]
     else []
   else
     ["Unknown MODEL_PROVIDER: " ++ provider ++ ". Supported: claude, openai"]) ++
  (if cfg.jira_url.isEmpty then ["JIRA_URL is required"] else []) ++
  (if cfg.jira_username.isEmpty then ["JIRA_USERNAME is required"] else []) ++
  (if cfg.jira_api_token.isEmpty then ["JIRA_API_TOKEN is required"] else []) ++
  (if cfg.confluence_url.isEmpty then ["CONFLUENCE_URL is required"] else []) ++
  (if cfg.confluence_username.isEmpty then ["CONFLUENCE_USERNAME is required"] else []) ++
  (if cfg.confluence_api_token.isEmpty then ["CONFLUENCE_API_TOKEN is required"] else [])

/-- Embedding of `Config.validate_required_fields`: raise
a ValueError whose message joins the errors with comma-space when any check
failed. -/
def AppConfig.validate_required_fields (cfg : AppConfig) : Except String Unit :=
  if cfg.config_errors.isEmpty then
    .ok ()
  else
    .error ("Configuration errors: " ++ String.intercalate ", " cfg.config_errors)

/-- Embedding of `get_config()` of `src/config.py`: build the `Config` from the
environment (here: the already-materialized field record) and validate it
before returning it to the caller. -/
def get_config (cfg : AppConfig) : Except String AppConfig := do
  cfg.validate_required_fields
  pure cfg

/-- Embedding of `create_agent_provider` of `src/providers/__init__.py`: lower-case the
configured kind, construct the matching implementation, or raise `ValueError`
before constructing either. The returned log records which implementation
constructor ran (and with it the subprocess/network resources its `__init__`
acquires). -/
def create_agent_provider (cfg : AppConfig) : Except String String × List String :=
  let provider := pyLower cfg.model_provider
  if provider = "claude" then
    (.ok "claude", ["ClaudeAgentProvider"])
  else if provider = "openai" then
    (.ok "openai", ["OpenAIAgentProvider"])
  else
    (.error ("Unknown provider: " ++ provider ++ ". Supported providers: claude, openai"), [])

/-- The application construction sequence of `src/main.py`: `get_config()`
(which validates and raises on a configuration error) runs before any
provider implementation is constructed; only a validated config reaches the
provider constructors. -/
def app_construct_provider (cfg : AppConfig) : Except String String × List String :=
  match get_config cfg with
  | .error e => (.error e, [])
  | .ok validated => create_agent_provider validated

/-- Embedding of `ClaudeAgentProvider.chat(message)`: the wrapped `claude_agent_sdk`
runtime (`self.agent.chat`, including its attachment to the tool-server
subprocess) is the oracle; any exception it raises is caught and rendered as
`f"Error: {str(e)}"`. -/
def ClaudeAgentProvider.chat (agent_chat : String → Except String String) (message : String) :
    String :=
  match agent_chat message with
  | .ok response => response
  | .error e => "Error: " ++ e

/-- Embedding of `OpenAIAgentProvider.chat(message)`: `asyncio.run(self._async_chat(message))`
— the scoped `MCPServerStdio` attach, the `Runner.run` call and the result
extraction — is the oracle; any exception escaping it is caught and rendered
as `f"Error: {str(e)}"`. -/
def OpenAIAgentProvider.chat (run_async_chat : String → Except String String) (message : String) :
    String :=
  match run_async_chat message with
  | .ok response => response
  | .error e => "Error: " ++ e

/-! ## Concrete instances used by witnesses -/

/-- A Jira oracle whose every method succeeds with an empty JSON object. -/
def okJiraApi : JiraApi :=
  ⟨fun _ _ => .ok (PyVal.dict []), fun _ => .ok (PyVal.dict []),
   fun _ _ => .ok (PyVal.dict []), fun _ => .ok (PyVal.dict []),
   fun _ _ => .ok (PyVal.dict [])⟩

/-- A Confluence oracle whose every method succeeds with an empty JSON object. -/
def okConfluenceApi : ConfluenceApi :=
  ⟨fun _ _ => .ok (PyVal.dict []), fun _ _ => .ok (PyVal.dict []),
   fun _ => .ok (PyVal.dict []), fun _ => .ok (PyVal.dict []),
   fun _ => .ok (PyVal.dict [])⟩

/-- Both all-succeeding oracles. -/
def okOracles : AtlOracles := ⟨okJiraApi, okConfluenceApi⟩

/-- A Jira oracle whose every method raises with message `e`. -/
def failJiraApi (e : String) : JiraApi :=
  ⟨fun _ _ => .error e, fun _ => .error e, fun _ _ => .error e,
   fun _ => .error e, fun _ _ => .error e⟩

/-- A Confluence oracle whose every method raises with message `e`. -/
def failConfluenceApi (e : String) : ConfluenceApi :=
  ⟨fun _ _ => .error e, fun _ _ => .error e, fun _ => .error e,
   fun _ => .error e, fun _ => .error e⟩

/-- A concrete tool-module configuration. -/
def testCfg : AtlConfig :=
  ⟨"https://jira.example.com", "https://confluence.example.com", "TEAM", "user@example.com"⟩

/-- Predicate: `s` begins with the error marker `Error`. -/
def beginsWithError (s : String) : Prop := ∃ rest, s = "Error" ++ rest

theorem beginsWithError_append {s : String} (t : String) (h : beginsWithError s) :
    beginsWithError (s ++ t) := by
  obtain ⟨r, hr⟩ := h
  exact ⟨r ++ t, by rw [hr, String.append_assoc]⟩

/-! ## Claim theorems -/

/-- C5: `create_agent_provider` compares the configured provider kind
case-insensitively: any casing of `claude` constructs exactly the Claude
implementation, any casing of `openai` constructs exactly the OpenAI
implementation, and any other value raises `ValueError` with neither
implementation constructed (empty construction log). -/
theorem factory_selects_provider_case_insensitively (cfg : AppConfig) :
    (pyLower cfg.model_provider = "claude" →
       create_agent_provider cfg = (.ok "claude", ["ClaudeAgentProvider"])) ∧
    (pyLower cfg.model_provider = "openai" →
       create_agent_provider cfg = (.ok "openai", ["OpenAIAgentProvider"])) ∧
    (pyLower cfg.model_provider ≠ "claude" → pyLower cfg.model_provider ≠ "openai" →
       create_agent_provider cfg =
         (.error ("Unknown provider: " ++ pyLower cfg.model_provider ++
                  ". Supported providers: claude, openai"), [])) := by
  refine ⟨fun h => ?_, fun h => ?_, fun h1 h2 => ?_⟩
  · simp [create_agent_provider, h]
  · simp [create_agent_provider, h]
  · simp [create_agent_provider, h1, h2]

/-- Witness for C5 at the three kinds of concrete inputs. -/
theorem factory_selects_provider_case_insensitively_witness :
    create_agent_provider ⟨"CLaUdE", "k", "", "j", "u", "t", "c", "cu", "ct"⟩ =
      (.ok "claude", ["ClaudeAgentProvider"]) ∧
    create_agent_provider ⟨"OpenAI", "", "k", "j", "u", "t", "c", "cu", "ct"⟩ =
      (.ok "openai", ["OpenAIAgentProvider"]) ∧
    create_agent_provider ⟨"bogus", "k", "k", "j", "u", "t", "c", "cu", "ct"⟩ =
      (.error "Unknown provider: bogus. Supported providers: claude, openai", []) := by
  refine ⟨(factory_selects_provider_case_insensitively _).1 (by decide),
          (factory_selects_provider_case_insensitively _).2.1 (by decide),
          ?_⟩
  have h := (factory_selects_provider_case_insensitively
    ⟨"bogus", "k", "k", "j", "u", "t", "c", "cu", "ct"⟩).2.2 (by decide) (by decide)
  rw [h]
  rfl

/-- C3: for both provider implementations, `chat` never raises: when the
wrapped runtime (including its tool-server subprocess attachment) raises any
exception, `chat` returns the string `"Error: " ++ message`, which begins with
the error marker `Error:`. -/
theorem chat_never_raises (f g : String → Except String String) (msg e : String)
    (hf : f msg = .error e) (hg : g msg = .error e) :
    ClaudeAgentProvider.chat f msg = "Error: " ++ e ∧
    OpenAIAgentProvider.chat g msg = "Error: " ++ e ∧
    (∃ rest, "Error: " ++ e = "Error:" ++ rest) := by
  refine ⟨?_, ?_, ⟨" " ++ e, ?_⟩⟩
  · simp [ClaudeAgentProvider.chat, hf]
  · simp [OpenAIAgentProvider.chat, hg]
  · rw [← String.append_assoc]
    congr 1

/-- Witness for C3 with a concretely failing runtime. -/
theorem chat_never_raises_witness :
    ClaudeAgentProvider.chat (fun _ => .error "boom") "hi" = "Error: boom" ∧
    OpenAIAgentProvider.chat (fun _ => .error "boom") "hi" = "Error: boom" ∧
    (∃ rest, "Error: " ++ "boom" = "Error:" ++ rest) :=
  chat_never_raises (fun _ => .error "boom") (fun _ => .error "boom") "hi" "boom" rfl rfl

/-- C4: when the configured provider kind lower-cases to `claude` and the
anthropic credential is empty, the construction sequence of the application
(`get_config()` validation followed by provider construction) raises the
configuration error — whose first entry is the missing-credential message —
and constructs no provider (empty construction log), so the failure cannot be
deferred to a first `chat` call. -/
theorem claude_missing_credential_fails_before_construction (cfg : AppConfig)
    (hp : pyLower cfg.model_provider = "claude") (hk : cfg.anthropic_api_key = "") :
    app_construct_provider cfg =
      (.error ("Configuration errors: " ++ String.intercalate ", " cfg.config_errors), []) ∧
    cfg.config_errors.head? = some "ANTHROPIC_API_KEY is required when using Claude provider" := by
  have hrest : cfg.config_errors =
      "ANTHROPIC_API_KEY is required when using Claude provider" ::
        ((if cfg.jira_url.isEmpty then ["JIRA_URL is required"] else []) ++
         (if cfg.jira_username.isEmpty then ["JIRA_USERNAME is required"] else []) ++
         (if cfg.jira_api_token.isEmpty then ["JIRA_API_TOKEN is required"] else []) ++
         (if cfg.confluence_url.isEmpty then ["CONFLUENCE_URL is required"] else []) ++
         (if cfg.confluence_username.isEmpty then ["CONFLUENCE_USERNAME is required"] else []) ++
         (if cfg.confluence_api_token.isEmpty then ["CONFLUENCE_API_TOKEN is required"] else [])) := by
    unfold AppConfig.config_errors
    rw [hp, hk]
    simp [String.isEmpty_iff]
  have hne : cfg.config_errors.isEmpty = false := by rw [hrest]; rfl
  constructor
  · simp [app_construct_provider, get_config, AppConfig.validate_required_fields, hne,
      Except.bind]
  · rw [hrest]; rfl

/-- Witness for C4: a config with `claude` selected, an empty anthropic key
and all other fields present. -/
theorem claude_missing_credential_fails_before_construction_witness :
    app_construct_provider ⟨"claude", "", "k", "j", "u", "t", "c", "cu", "ct"⟩ =
      (.error ("Configuration errors: " ++ String.intercalate ", "
        (AppConfig.config_errors ⟨"claude", "", "k", "j", "u", "t", "c", "cu", "ct"⟩)), []) ∧
    (AppConfig.config_errors ⟨"claude", "", "k", "j", "u", "t", "c", "cu", "ct"⟩).head? =
      some "ANTHROPIC_API_KEY is required when using Claude provider" :=
  claude_missing_credential_fails_before_construction _ (by decide) rfl

/-- C7: `list_tools` returns the same ordered catalog on every call — the
five Jira tools followed by the five Confluence tools — each registered name
appears in exactly one descriptor, and the catalog size equals the number of
registered handlers. -/
theorem list_tools_catalog_stable_and_complete :
    (∀ u v : Unit, list_tools u = list_tools v) ∧
    (list_tools ()).map Tool.name =
      ["search_jira_tickets", "create_jira_ticket", "update_jira_ticket", "add_jira_comment",
       "get_my_sprint_tasks", "search_confluence_pages", "create_confluence_page",
       "update_confluence_page", "get_confluence_page_content", "get_recent_confluence_pages"] ∧
    ((list_tools ()).map Tool.name).Nodup ∧
    (∀ n, n ∈ (list_tools ()).map Tool.name → ((list_tools ()).map Tool.name).count n = 1) ∧
    (∀ (o : AtlOracles) (cfg : AtlConfig),
      (toolRegistry o cfg).map Prod.fst = (list_tools ()).map Tool.name ∧
      (list_tools ()).length = (toolRegistry o cfg).length) :=
  ⟨fun _ _ => rfl, rfl, by decide, by decide, fun _ _ => ⟨rfl, rfl⟩⟩

/-- C1: a `call_tool` request naming a tool outside the ten registered names
returns a single error text block, executes no registered handler, performs no
remote call, and does not terminate the transport loop. -/
theorem unknown_tool_rejected_without_handler (o : AtlOracles) (cfg : AtlConfig)
    (name : String) (args : Args)
    (h : name ∉ (toolRegistry o cfg).map Prod.fst) :
    call_tool_dispatch o cfg name args =
      ⟨errBlock ("Error: Unknown tool: " ++ name), Option.none, [], false⟩ := by
  have hl : (toolRegistry o cfg).lookup name = Option.none := by
    simp only [toolRegistry, List.map, List.mem_cons, List.not_mem_nil, or_false,
      not_or] at h
    obtain ⟨h1, h2, h3, h4, h5, h6, h7, h8, h9, h10⟩ := h
    simp [List.lookup, beq_eq_false_iff_ne.mpr h1, beq_eq_false_iff_ne.mpr h2,
      beq_eq_false_iff_ne.mpr h3, beq_eq_false_iff_ne.mpr h4, beq_eq_false_iff_ne.mpr h5,
      beq_eq_false_iff_ne.mpr h6, beq_eq_false_iff_ne.mpr h7, beq_eq_false_iff_ne.mpr h8,
      beq_eq_false_iff_ne.mpr h9, beq_eq_false_iff_ne.mpr h10]
  simp [call_tool_dispatch, hl]

/-- Witness for C1 at an unknown name with the empty argument mapping. -/
theorem unknown_tool_rejected_without_handler_witness :
    call_tool_dispatch okOracles testCfg "no_such_tool" [] =
      ⟨errBlock ("Error: Unknown tool: " ++ "no_such_tool"), Option.none, [], false⟩ :=
  unknown_tool_rejected_without_handler okOracles testCfg "no_such_tool" [] (by decide)

/-- C6: calling `search_jira_tickets` with an argument mapping that has no
`jql` key returns the single required-parameter error block and performs no
remote call, regardless of the oracle. -/
theorem search_jira_tickets_absent_jql_no_remote_call (api : JiraApi) (cfg : AtlConfig)
    (args : Args) (h : args.lookup "jql" = Option.none) :
    JiraTools.search_jira_tickets api cfg args =
      (errBlock "Error: \x27jql\x27 parameter is required", []) := by
  unfold JiraTools.search_jira_tickets
  simp [Args.getD, h, PyVal.truthy, String.isEmpty]

/-- Witness for C6 at a mapping without `jql` (and an unrelated key). -/
theorem search_jira_tickets_absent_jql_no_remote_call_witness :
    JiraTools.search_jira_tickets okJiraApi testCfg [("max_results", PyVal.int 5)] =
      (errBlock "Error: \x27jql\x27 parameter is required", []) :=
  search_jira_tickets_absent_jql_no_remote_call okJiraApi testCfg
    [("max_results", PyVal.int 5)] rfl

/-- C9: for every tool with required string parameters, a required parameter
bound to the empty string is treated exactly like an absent one: the handler
returns the same single required-parameter error block and performs no remote
call (for `search_jira_tickets`, `create_jira_ticket`, `add_jira_comment`,
`update_jira_ticket`, `search_confluence_pages`, `create_confluence_page` and
`update_confluence_page`, at each of their required parameters). -/
theorem empty_required_param_treated_as_absent
    (jo : JiraApi) (co : ConfluenceApi) (cfg : AtlConfig) (args : Args) :
    ((args.lookup "jql" = some (PyVal.str "") ∨ args.lookup "jql" = Option.none) →
      JiraTools.search_jira_tickets jo cfg args =
        (errBlock "Error: \x27jql\x27 parameter is required", [])) ∧
    ((args.lookup "project_key" = some (PyVal.str "") ∨ args.lookup "project_key" = Option.none) →
      JiraTools.create_jira_ticket jo cfg args =
        (errBlock "Error: \x27project_key\x27, \x27summary\x27, and \x27description\x27 are required", [])) ∧
    ((args.lookup "summary" = some (PyVal.str "") ∨ args.lookup "summary" = Option.none) →
      JiraTools.create_jira_ticket jo cfg args =
        (errBlock "Error: \x27project_key\x27, \x27summary\x27, and \x27description\x27 are required", [])) ∧
    ((args.lookup "description" = some (PyVal.str "") ∨ args.lookup "description" = Option.none) →
      JiraTools.create_jira_ticket jo cfg args =
        (errBlock "Error: \x27project_key\x27, \x27summary\x27, and \x27description\x27 are required", [])) ∧
    ((args.lookup "issue_key" = some (PyVal.str "") ∨ args.lookup "issue_key" = Option.none) →
      JiraTools.update_jira_ticket jo cfg args =
        (errBlock "Error: \x27issue_key\x27 is required", [])) ∧
    ((args.lookup "issue_key" = some (PyVal.str "") ∨ args.lookup "issue_key" = Option.none) →
      JiraTools.add_jira_comment jo cfg args =
        (errBlock "Error: \x27issue_key\x27 and \x27comment\x27 are required", [])) ∧
    ((args.lookup "comment" = some (PyVal.str "") ∨ args.lookup "comment" = Option.none) →
      JiraTools.add_jira_comment jo cfg args =
        (errBlock "Error: \x27issue_key\x27 and \x27comment\x27 are required", [])) ∧
    ((args.lookup "query" = some (PyVal.str "") ∨ args.lookup "query" = Option.none) →
      ConfTools.search_confluence_pages co cfg args =
        (errBlock "Error: \x27query\x27 parameter is required", [])) ∧
    ((args.lookup "title" = some (PyVal.str "") ∨ args.lookup "title" = Option.none) →
      ConfTools.create_confluence_page co cfg args =
        (errBlock "Error: \x27title\x27 and \x27body\x27 are required", [])) ∧
    ((args.lookup "body" = some (PyVal.str "") ∨ args.lookup "body" = Option.none) →
      ConfTools.create_confluence_page co cfg args =
        (errBlock "Error: \x27title\x27 and \x27body\x27 are required", [])) ∧
    ((args.lookup "page_id" = some (PyVal.str "") ∨ args.lookup "page_id" = Option.none) →
      ConfTools.update_confluence_page co cfg args =
        (errBlock "Error: \x27page_id\x27 is required", [])) := by
  refine ⟨?_, ?_, ?_, ?_, ?_, ?_, ?_, ?_, ?_, ?_, ?_⟩ <;>
    rintro (h | h) <;>
    simp [JiraTools.search_jira_tickets, JiraTools.create_jira_ticket,
      JiraTools.update_jira_ticket, JiraTools.add_jira_comment,
      ConfTools.search_confluence_pages, ConfTools.create_confluence_page,
      ConfTools.update_confluence_page, Args.getD, h, PyVal.truthy, String.isEmpty]

/-- Witness for C9: each handler applied at a mapping binding one required
parameter to the empty string. -/
theorem empty_required_param_treated_as_absent_witness :
    JiraTools.search_jira_tickets okJiraApi testCfg [("jql", PyVal.str "")] =
      (errBlock "Error: \x27jql\x27 parameter is required", []) ∧
    JiraTools.create_jira_ticket okJiraApi testCfg [("project_key", PyVal.str "")] =
      (errBlock "Error: \x27project_key\x27, \x27summary\x27, and \x27description\x27 are required", []) ∧
    JiraTools.create_jira_ticket okJiraApi testCfg [("summary", PyVal.str "")] =
      (errBlock "Error: \x27project_key\x27, \x27summary\x27, and \x27description\x27 are required", []) ∧
    JiraTools.create_jira_ticket okJiraApi testCfg [("description", PyVal.str "")] =
      (errBlock "Error: \x27project_key\x27, \x27summary\x27, and \x27description\x27 are required", []) ∧
    JiraTools.update_jira_ticket okJiraApi testCfg [("issue_key", PyVal.str "")] =
      (errBlock "Error: \x27issue_key\x27 is required", []) ∧
    JiraTools.add_jira_comment okJiraApi testCfg [("issue_key", PyVal.str "")] =
      (errBlock "Error: \x27issue_key\x27 and \x27comment\x27 are required", []) ∧
    JiraTools.add_jira_comment okJiraApi testCfg [("comment", PyVal.str "")] =
      (errBlock "Error: \x27issue_key\x27 and \x27comment\x27 are required", []) ∧
    ConfTools.search_confluence_pages okConfluenceApi testCfg [("query", PyVal.str "")] =
      (errBlock "Error: \x27query\x27 parameter is required", []) ∧
    ConfTools.create_confluence_page okConfluenceApi testCfg [("title", PyVal.str "")] =
      (errBlock "Error: \x27title\x27 and \x27body\x27 are required", []) ∧
    ConfTools.create_confluence_page okConfluenceApi testCfg [("body", PyVal.str "")] =
      (errBlock "Error: \x27title\x27 and \x27body\x27 are required", []) ∧
    ConfTools.update_confluence_page okConfluenceApi testCfg [("page_id", PyVal.str "")] =
      (errBlock "Error: \x27page_id\x27 is required", []) :=
  ⟨(empty_required_param_treated_as_absent okJiraApi okConfluenceApi testCfg _).1 (Or.inl rfl),
   (empty_required_param_treated_as_absent okJiraApi okConfluenceApi testCfg _).2.1 (Or.inl rfl),
   (empty_required_param_treated_as_absent okJiraApi okConfluenceApi testCfg _).2.2.1 (Or.inl rfl),
   (empty_required_param_treated_as_absent okJiraApi okConfluenceApi testCfg _).2.2.2.1 (Or.inl rfl),
   (empty_required_param_treated_as_absent okJiraApi okConfluenceApi testCfg _).2.2.2.2.1 (Or.inl rfl),
   (empty_required_param_treated_as_absent okJiraApi okConfluenceApi testCfg _).2.2.2.2.2.1 (Or.inl rfl),
   (empty_required_param_treated_as_absent okJiraApi okConfluenceApi testCfg _).2.2.2.2.2.2.1 (Or.inl rfl),
   (empty_required_param_treated_as_absent okJiraApi okConfluenceApi testCfg _).2.2.2.2.2.2.2.1 (Or.inl rfl),
   (empty_required_param_treated_as_absent okJiraApi okConfluenceApi testCfg _).2.2.2.2.2.2.2.2.1 (Or.inl rfl),
   (empty_required_param_treated_as_absent okJiraApi okConfluenceApi testCfg _).2.2.2.2.2.2.2.2.2.1 (Or.inl rfl),
   (empty_required_param_treated_as_absent okJiraApi okConfluenceApi testCfg _).2.2.2.2.2.2.2.2.2.2 (Or.inl rfl)⟩

/-- C10: `update_jira_ticket` with a valid (truthy) `issue_key` but neither a
`summary` nor a `description` key present returns a single error block and
performs no remote call; `update_confluence_page` with a valid `page_id` but
neither a truthy `title` nor a truthy `body` likewise — although the catalog
schemas list those parameters as optional (`required` is `["issue_key"]`
resp. `["page_id"]`). -/
theorem update_tools_reject_missing_update_fields
    (jo : JiraApi) (co : ConfluenceApi) (cfg : AtlConfig) (args brgs : Args) :
    ((args.getD "issue_key" (PyVal.str "")).truthy = true →
     args.hasKey "summary" = false →
     args.hasKey "description" = false →
     JiraTools.update_jira_ticket jo cfg args =
       (errBlock "Error: At least one field to update must be provided", [])) ∧
    ((brgs.getD "page_id" (PyVal.str "")).truthy = true →
     (brgs.getD "title" PyVal.none).truthy = false →
     (brgs.getD "body" PyVal.none).truthy = false →
     ConfTools.update_confluence_page co cfg brgs =
       (errBlock "Error: At least one of \x27title\x27 or \x27body\x27 must be provided", [])) ∧
    ((list_tools ()).filter (fun t => t.name == "update_jira_ticket")).map
        (fun t => t.inputSchema.required) = [["issue_key"]] ∧
    ((list_tools ()).filter (fun t => t.name == "update_confluence_page")).map
        (fun t => t.inputSchema.required) = [["page_id"]] ∧
    ((list_tools ()).filter (fun t => t.name == "update_jira_ticket")).map
        (fun t => t.inputSchema.properties.map Prod.fst) = [["issue_key", "summary", "description"]] ∧
    ((list_tools ()).filter (fun t => t.name == "update_confluence_page")).map
        (fun t => t.inputSchema.properties.map Prod.fst) = [["page_id", "title", "body"]] := by
  refine ⟨fun h1 h2 h3 => ?_, fun h1 h2 h3 => ?_, rfl, rfl, rfl, rfl⟩
  · simp [JiraTools.update_jira_ticket, h1, h2, h3]
  · simp [ConfTools.update_confluence_page, h1, h2, h3]

/-- Witness for C10: a mapping with only a non-empty `issue_key`, and one
with a non-empty `page_id` plus an empty `title`. -/
theorem update_tools_reject_missing_update_fields_witness :
    JiraTools.update_jira_ticket okJiraApi testCfg [("issue_key", PyVal.str "PROJ-1")] =
      (errBlock "Error: At least one field to update must be provided", []) ∧
    ConfTools.update_confluence_page okConfluenceApi testCfg
      [("page_id", PyVal.str "42"), ("title", PyVal.str "")] =
      (errBlock "Error: At least one of \x27title\x27 or \x27body\x27 must be provided", []) :=
  ⟨(update_tools_reject_missing_update_fields okJiraApi okConfluenceApi testCfg
      [("issue_key", PyVal.str "PROJ-1")] []).1 rfl rfl rfl,
   (update_tools_reject_missing_update_fields okJiraApi okConfluenceApi testCfg []
      [("page_id", PyVal.str "42"), ("title", PyVal.str "")]).2.1 rfl rfl rfl⟩

/-- The specified sprint-name behaviour, stated as the claim reads: when the
sprint field `customfield_10020` is a non-empty list, take its last element —
a dict yields its `name` entry, a string yields the substring captured by
`name=([^,\]]+)` — and in every other case (absent field, non-list field,
empty list, last element of another type, or no regex match) report `None`. -/
def sprint_name_spec (fields : List (String × PyVal)) : PyVal :=
  match fields.lookup "customfield_10020" with
  | some (PyVal.list (x :: xs)) =>
    match (x :: xs).getLast (List.cons_ne_nil x xs) with
    | PyVal.dict d => (d.lookup "name").getD PyVal.none
    | PyVal.str s =>
      match reSearchSprintName s.data with
      | some nm => PyVal.str nm
      | Option.none => PyVal.none
    | _ => PyVal.none
  | _ => PyVal.none

theorem sprint_from_field_getD (fields : List (String × PyVal)) :
    sprint_from_field ((fields.lookup "customfield_10020").getD PyVal.none) =
      sprint_name_spec fields := by
  unfold sprint_from_field sprint_name_spec
  cases hl : fields.lookup "customfield_10020" with
  | none => rfl
  | some v =>
    cases v with
    | list xs =>
      cases xs with
      | nil => rfl
      | cons x t =>
        simp only [Option.getD_some, List.isEmpty_cons, Bool.false_eq_true, if_false,
          List.getLast?_eq_getLast (x :: t) (List.cons_ne_nil x t)]
        generalize (x :: t).getLast (List.cons_ne_nil x t) = L
        cases L <;> rfl
    | none => rfl
    | str s => rfl
    | int n => rfl
    | bool b => rfl
    | dict d => rfl

/-- C8: the sprint name reported by `format_issue` comes from the last
element of a non-empty `customfield_10020` list (dict → its `name` entry,
string → the `name=([^,\]]+)` capture), and is `None` in every other case —
i.e. `_extract_sprint_name` computes exactly `sprint_name_spec`, and a
successful `format_issue` reports exactly that value in its `sprint` entry. -/
theorem sprint_reported_from_last_element (fields : List (String × PyVal)) :
    extract_sprint_name (PyVal.dict fields) = .ok (sprint_name_spec fields) ∧
    (∀ (url : String) (issue : PyVal) (fi : FormattedIssue),
      format_issue url issue = .ok fi →
      pyGet issue "fields" (PyVal.dict []) = .ok (PyVal.dict fields) →
      fi.sprint = sprint_name_spec fields) := by
  have hex : extract_sprint_name (PyVal.dict fields) = .ok (sprint_name_spec fields) := by
    unfold extract_sprint_name
    simp only [pyGet, Bind.bind, Except.bind, pure, Except.pure, sprint_from_field_getD]
  refine ⟨hex, fun url issue fi hfmt hfields => ?_⟩
  cases issue with
  | dict kvs =>
    unfold format_issue at hfmt
    rw [hfields] at hfmt
    simp only [Bind.bind, Except.bind, pyGet, hex, pure, Except.pure] at hfmt
    repeat' (split at hfmt <;> try exact Except.noConfusion hfmt)
    all_goals (cases hfmt; rfl)
  | none => simp [pyGet] at hfields
  | str s => simp [pyGet] at hfields
  | int n => simp [pyGet] at hfields
  | bool b => simp [pyGet] at hfields
  | list xs => simp [pyGet] at hfields

/-- The concrete fields dict used by the C8 witness: its sprint field holds a
dict sprint and then a string-serialized sprint as the last element. -/
def witnessSprintFields : List (String × PyVal) :=
  [("customfield_10020", PyVal.list
    [PyVal.dict [("name", PyVal.str "Sprint 1")],
     PyVal.str "com.atlassian.greenhopper.service.sprint.Sprint[id=7,name=Sprint 7,state=ACTIVE]"])]

/-- Witness for C8: the extraction and a full `format_issue` run at the
concrete issue, both reporting the sprint captured from the last element. -/
theorem sprint_reported_from_last_element_witness :
    extract_sprint_name (PyVal.dict witnessSprintFields) =
      .ok (sprint_name_spec witnessSprintFields) ∧
    FormattedIssue.sprint
        ⟨PyVal.str "K-1", PyVal.none, PyVal.none, PyVal.str "None", PyVal.str "Unassigned",
         PyVal.none, PyVal.none, PyVal.none, PyVal.str "No description", PyVal.list [],
         PyVal.str "Sprint 7", PyVal.none, "u/browse/K-1"⟩ =
      sprint_name_spec witnessSprintFields ∧
    sprint_name_spec witnessSprintFields = PyVal.str "Sprint 7" :=
  ⟨(sprint_reported_from_last_element witnessSprintFields).1,
   (sprint_reported_from_last_element witnessSprintFields).2 "u"
     (PyVal.dict [("key", PyVal.str "K-1"), ("fields", PyVal.dict witnessSprintFields)])
     ⟨PyVal.str "K-1", PyVal.none, PyVal.none, PyVal.str "None", PyVal.str "Unassigned",
      PyVal.none, PyVal.none, PyVal.none, PyVal.str "No description", PyVal.list [],
      PyVal.str "Sprint 7", PyVal.none, "u/browse/K-1"⟩
     (by rfl) (by rfl),
   by rfl⟩

theorem jt_search_fail (e : String) (cfg : AtlConfig) (args : Args) :
    ∃ t log, JiraTools.search_jira_tickets (failJiraApi e) cfg args = (errBlock t, log) ∧
      beginsWithError t := by
  unfold JiraTools.search_jira_tickets
  dsimp only
  split
  · exact ⟨_, _, rfl, ⟨": \x27jql\x27 parameter is required", rfl⟩⟩
  · exact ⟨_, _, rfl, beginsWithError_append _ ⟨" searching Jira tickets: ", rfl⟩⟩

theorem jt_create_fail (e : String) (cfg : AtlConfig) (args : Args) :
    ∃ t log, JiraTools.create_jira_ticket (failJiraApi e) cfg args = (errBlock t, log) ∧
      beginsWithError t := by
  unfold JiraTools.create_jira_ticket
  dsimp only
  split
  · exact ⟨_, _, rfl, ⟨": \x27project_key\x27, \x27summary\x27, and \x27description\x27 are required", rfl⟩⟩
  · exact ⟨_, _, rfl, beginsWithError_append _ ⟨" creating Jira ticket: ", rfl⟩⟩

theorem jt_update_fail (e : String) (cfg : AtlConfig) (args : Args) :
    ∃ t log, JiraTools.update_jira_ticket (failJiraApi e) cfg args = (errBlock t, log) ∧
      beginsWithError t := by
  unfold JiraTools.update_jira_ticket
  dsimp only
  split
  · exact ⟨_, _, rfl, ⟨": \x27issue_key\x27 is required", rfl⟩⟩
  · cases hs : args.hasKey "summary" <;> cases hd : args.hasKey "description"
    · exact ⟨_, _, rfl, ⟨": At least one field to update must be provided", rfl⟩⟩
    · exact ⟨_, _, rfl, beginsWithError_append _ ⟨" updating Jira ticket: ", rfl⟩⟩
    · exact ⟨_, _, rfl, beginsWithError_append _ ⟨" updating Jira ticket: ", rfl⟩⟩
    · exact ⟨_, _, rfl, beginsWithError_append _ ⟨" updating Jira ticket: ", rfl⟩⟩

theorem jt_comment_fail (e : String) (cfg : AtlConfig) (args : Args) :
    ∃ t log, JiraTools.add_jira_comment (failJiraApi e) cfg args = (errBlock t, log) ∧
      beginsWithError t := by
  unfold JiraTools.add_jira_comment
  dsimp only
  split
  · exact ⟨_, _, rfl, ⟨": \x27issue_key\x27 and \x27comment\x27 are required", rfl⟩⟩
  · exact ⟨_, _, rfl, beginsWithError_append _ ⟨" adding comment to Jira ticket: ", rfl⟩⟩

theorem jt_sprint_fail (e : String) (cfg : AtlConfig) (args : Args) :
    ∃ t log, JiraTools.get_my_sprint_tasks (failJiraApi e) cfg args = (errBlock t, log) ∧
      beginsWithError t :=
  ⟨_, _, rfl, beginsWithError_append _ ⟨" getting sprint tasks: ", rfl⟩⟩

theorem ct_search_fail (e : String) (cfg : AtlConfig) (args : Args) :
    ∃ t log, ConfTools.search_confluence_pages (failConfluenceApi e) cfg args = (errBlock t, log) ∧
      beginsWithError t := by
  unfold ConfTools.search_confluence_pages
  dsimp only
  split
  · exact ⟨_, _, rfl, ⟨": \x27query\x27 parameter is required", rfl⟩⟩
  · exact ⟨_, _, rfl, beginsWithError_append _ ⟨" searching Confluence pages: ", rfl⟩⟩

theorem ct_create_fail (e : String) (cfg : AtlConfig) (args : Args) :
    ∃ t log, ConfTools.create_confluence_page (failConfluenceApi e) cfg args = (errBlock t, log) ∧
      beginsWithError t := by
  unfold ConfTools.create_confluence_page
  dsimp only
  split
  · exact ⟨_, _, rfl, ⟨": \x27title\x27 and \x27body\x27 are required", rfl⟩⟩
  · exact ⟨_, _, rfl, beginsWithError_append _ ⟨" creating Confluence page: ", rfl⟩⟩

theorem ct_update_fail (e : String) (cfg : AtlConfig) (args : Args) :
    ∃ t log, ConfTools.update_confluence_page (failConfluenceApi e) cfg args = (errBlock t, log) ∧
      beginsWithError t := by
  unfold ConfTools.update_confluence_page
  dsimp only
  split
  · exact ⟨_, _, rfl, ⟨": \x27page_id\x27 is required", rfl⟩⟩
  · split
    · exact ⟨_, _, rfl, ⟨": At least one of \x27title\x27 or \x27body\x27 must be provided", rfl⟩⟩
    · exact ⟨_, _, rfl, beginsWithError_append _ ⟨" updating Confluence page: ", rfl⟩⟩

theorem ct_content_fail (e : String) (cfg : AtlConfig) (args : Args) :
    ∃ t log, ConfTools.get_confluence_page_content (failConfluenceApi e) cfg args = (errBlock t, log) ∧
      beginsWithError t := by
  unfold ConfTools.get_confluence_page_content
  dsimp only
  split
  · exact ⟨_, _, rfl, ⟨": Either \x27page_id\x27 or \x27title\x27 must be provided", rfl⟩⟩
  · next hcond =>
    cases hp : (args.getD "page_id" PyVal.none).truthy
    · have ht : (args.getD "title" PyVal.none).truthy = true := by
        by_contra hff
        rw [Bool.not_eq_true] at hff
        exact hcond (by rw [hp, hff]; rfl)
      simp only [ConfluenceClient.get_page_content, hp, ht, Bool.false_eq_true, if_false, if_true]
      exact ⟨_, _, rfl, beginsWithError_append _ ⟨" getting page content: ", rfl⟩⟩
    · simp only [ConfluenceClient.get_page_content, hp, if_true]
      exact ⟨_, _, rfl, beginsWithError_append _ ⟨" getting page content: ", rfl⟩⟩

theorem ct_recent_fail (e : String) (cfg : AtlConfig) (args : Args) :
    ∃ t log, ConfTools.get_recent_confluence_pages (failConfluenceApi e) cfg args = (errBlock t, log) ∧
      beginsWithError t :=
  ⟨_, _, rfl, beginsWithError_append _ ⟨" getting recent pages: ", rfl⟩⟩

theorem jt_search_single (api : JiraApi) (cfg : AtlConfig) (args : Args) :
    ((JiraTools.search_jira_tickets api cfg args).1).length = 1 := by
  unfold JiraTools.search_jira_tickets
  dsimp only
  repeat' split
  all_goals rfl

theorem jt_create_single (api : JiraApi) (cfg : AtlConfig) (args : Args) :
    ((JiraTools.create_jira_ticket api cfg args).1).length = 1 := by
  unfold JiraTools.create_jira_ticket
  dsimp only
  repeat' split
  all_goals rfl

theorem jt_update_single (api : JiraApi) (cfg : AtlConfig) (args : Args) :
    ((JiraTools.update_jira_ticket api cfg args).1).length = 1 := by
  unfold JiraTools.update_jira_ticket
  dsimp only
  repeat' split
  all_goals rfl

theorem jt_comment_single (api : JiraApi) (cfg : AtlConfig) (args : Args) :
    ((JiraTools.add_jira_comment api cfg args).1).length = 1 := by
  unfold JiraTools.add_jira_comment
  dsimp only
  repeat' split
  all_goals rfl

theorem jt_sprint_single (api : JiraApi) (cfg : AtlConfig) (args : Args) :
    ((JiraTools.get_my_sprint_tasks api cfg args).1).length = 1 := by
  unfold JiraTools.get_my_sprint_tasks
  dsimp only
  repeat' split
  all_goals rfl

theorem ct_search_single (api : ConfluenceApi) (cfg : AtlConfig) (args : Args) :
    ((ConfTools.search_confluence_pages api cfg args).1).length = 1 := by
  unfold ConfTools.search_confluence_pages
  dsimp only
  repeat' split
  all_goals rfl

theorem ct_create_single (api : ConfluenceApi) (cfg : AtlConfig) (args : Args) :
    ((ConfTools.create_confluence_page api cfg args).1).length = 1 := by
  unfold ConfTools.create_confluence_page
  dsimp only
  repeat' split
  all_goals rfl

theorem ct_update_single (api : ConfluenceApi) (cfg : AtlConfig) (args : Args) :
    ((ConfTools.update_confluence_page api cfg args).1).length = 1 := by
  unfold ConfTools.update_confluence_page
  dsimp only
  repeat' split
  all_goals rfl

theorem ct_content_single (api : ConfluenceApi) (cfg : AtlConfig) (args : Args) :
    ((ConfTools.get_confluence_page_content api cfg args).1).length = 1 := by
  unfold ConfTools.get_confluence_page_content
  dsimp only
  repeat' split
  all_goals rfl

theorem ct_recent_single (api : ConfluenceApi) (cfg : AtlConfig) (args : Args) :
    ((ConfTools.get_recent_confluence_pages api cfg args).1).length = 1 := by
  unfold ConfTools.get_recent_confluence_pages
  dsimp only
  repeat' split
  all_goals rfl

/-- C2: for every registered tool handler and every argument mapping, a
raising REST client is caught inside the handler: against an
always-raising client each of the ten handlers returns a single text block
whose text begins with the error marker `Error`; and against any client at
all, each handler returns exactly one text block — the handlers are total, so
no exception reaches the dispatch loop. -/
theorem handlers_catch_client_exceptions (e : String) (cfg : AtlConfig) (args : Args) :
    (∃ t log, JiraTools.search_jira_tickets (failJiraApi e) cfg args = (errBlock t, log) ∧
       beginsWithError t) ∧
    (∃ t log, JiraTools.create_jira_ticket (failJiraApi e) cfg args = (errBlock t, log) ∧
       beginsWithError t) ∧
    (∃ t log, JiraTools.update_jira_ticket (failJiraApi e) cfg args = (errBlock t, log) ∧
       beginsWithError t) ∧
    (∃ t log, JiraTools.add_jira_comment (failJiraApi e) cfg args = (errBlock t, log) ∧
       beginsWithError t) ∧
    (∃ t log, JiraTools.get_my_sprint_tasks (failJiraApi e) cfg args = (errBlock t, log) ∧
       beginsWithError t) ∧
    (∃ t log, ConfTools.search_confluence_pages (failConfluenceApi e) cfg args = (errBlock t, log) ∧
       beginsWithError t) ∧
    (∃ t log, ConfTools.create_confluence_page (failConfluenceApi e) cfg args = (errBlock t, log) ∧
       beginsWithError t) ∧
    (∃ t log, ConfTools.update_confluence_page (failConfluenceApi e) cfg args = (errBlock t, log) ∧
       beginsWithError t) ∧
    (∃ t log, ConfTools.get_confluence_page_content (failConfluenceApi e) cfg args = (errBlock t, log) ∧
       beginsWithError t) ∧
    (∃ t log, ConfTools.get_recent_confluence_pages (failConfluenceApi e) cfg args = (errBlock t, log) ∧
       beginsWithError t) ∧
    (∀ (jo : JiraApi) (co : ConfluenceApi),
      ((JiraTools.search_jira_tickets jo cfg args).1).length = 1 ∧
      ((JiraTools.create_jira_ticket jo cfg args).1).length = 1 ∧
      ((JiraTools.update_jira_ticket jo cfg args).1).length = 1 ∧
      ((JiraTools.add_jira_comment jo cfg args).1).length = 1 ∧
      ((JiraTools.get_my_sprint_tasks jo cfg args).1).length = 1 ∧
      ((ConfTools.search_confluence_pages co cfg args).1).length = 1 ∧
      ((ConfTools.create_confluence_page co cfg args).1).length = 1 ∧
      ((ConfTools.update_confluence_page co cfg args).1).length = 1 ∧
      ((ConfTools.get_confluence_page_content co cfg args).1).length = 1 ∧
      ((ConfTools.get_recent_confluence_pages co cfg args).1).length = 1) :=
  ⟨jt_search_fail e cfg args, jt_create_fail e cfg args, jt_update_fail e cfg args,
   jt_comment_fail e cfg args, jt_sprint_fail e cfg args, ct_search_fail e cfg args,
   ct_create_fail e cfg args, ct_update_fail e cfg args, ct_content_fail e cfg args,
   ct_recent_fail e cfg args,
   fun jo co =>
     ⟨jt_search_single jo cfg args, jt_create_single jo cfg args, jt_update_single jo cfg args,
      jt_comment_single jo cfg args, jt_sprint_single jo cfg args, ct_search_single co cfg args,
      ct_create_single co cfg args, ct_update_single co cfg args, ct_content_single co cfg args,
      ct_recent_single co cfg args⟩⟩

end LeverageAgent
